import Mathlib

/-!
Verification of the authentication and session-lifecycle subsystem of the
rag-admin backend, as a shallow embedding in Lean 4.

Conventions of the embedding:
* Times (`datetime.utcnow()` values, expiries) are abstract instants modelled
  as `Int`, measured in minutes; each operation receives the current instant
  `now` explicitly, mirroring every call to `utcnow()` in the source.
* Primary keys (`uuid4` defaults) are supplied by a `nextId` counter in the
  database state, which keeps ids unique just as the UUID defaults do.
* The SHA-256 refresh-token digest (`hash_refresh_token`), the bcrypt password
  digest (`hash_password`) and verification (`verify_password`) are
  cryptographic primitives; they appear as explicit function parameters
  (`hashTok`, `hashPwd`, `verifyPwd`), with injectivity assumed only where a
  theorem needs collision-freedom.
* The random refresh-token secret (`secrets.token_urlsafe(32)`) is an explicit
  input `freshPlain` of each operation that generates one.
* Python exceptions become an error sum type; an operation that can both write
  to the store and raise returns `DB × Except AuthError α`, since the source
  records login attempts before raising.
-/

namespace RagAdmin

/-- Auth provider tag (`app/models/user.py`, class AuthProvider). -/
inductive AuthProvider where
  | email
  | google
deriving DecidableEq, Repr

/-- `AuthProvider.value` in Python (the `str` payload of the enum member). -/
def AuthProvider.value : AuthProvider → String
  | .email => "email"
  | .google => "google"

/-- User account row (`app/models/user.py`, class User). -/
structure User where
  id : Nat
  email : String
  full_name : Option String := none
  password_hash : Option String := none
  auth_provider : AuthProvider := .email
  google_id : Option String := none
  is_active : Bool := true
deriving DecidableEq, Repr

/-- Refresh-token row (`app/models/refresh_token.py`, class RefreshToken). -/
structure RefreshToken where
  id : Nat
  user_id : Nat
  token_hash : String
  expires_at : Int
  created_at : Int := 0
  revoked_at : Option Int := none
  ip_address : Option String := none
  user_agent : Option String := none
deriving DecidableEq, Repr

/-- Login-attempt row (`app/models/login_attempt.py`, class LoginAttempt). -/
structure LoginAttempt where
  user_id : Option Nat
  email : String
  ip_address : String
  user_agent : Option String := none
  success : Bool
  failure_reason : Option String := none
  attempted_at : Int
deriving DecidableEq, Repr

/-- Project row (`app/models/project.py`), restricted to the fields the
sign-up flow touches. -/
structure Project where
  id : Nat
  user_id : Nat
  name : String
  description : Option String := none
  tags : List String := []
  is_default : Bool := false
deriving DecidableEq, Repr

/-- The persisted store all repositories act on.  `nextId` supplies fresh
primary keys (standing in for the `uuid4` column defaults). -/
structure DB where
  users : List User := []
  tokens : List RefreshToken := []
  attempts : List LoginAttempt := []
  projects : List Project := []
  nextId : Nat := 0
deriving DecidableEq, Repr

/-! ## Repositories -/

/-- `UserRepository.get_by_email` (`app/repositories/user_repository.py`):
`select(User).where(User.email == email)`, case-sensitive as stored. -/
def get_by_email (db : DB) (email : String) : Option User :=
  db.users.find? (fun u => u.email == email)

/-- `UserRepository.get_by_id`. -/
def get_by_id (db : DB) (user_id : Nat) : Option User :=
  db.users.find? (fun u => u.id == user_id)

/-- `UserRepository.get_by_google_id`. -/
def get_by_google_id (db : DB) (google_id : String) : Option User :=
  db.users.find? (fun u => u.google_id == some google_id)

/-- `UserRepository.create`: insert, with the primary-key default filled in. -/
def user_create (db : DB) (u : User) : DB × User :=
  let u' : User := { u with id := db.nextId }
  ({ db with users := db.users ++ [u'], nextId := db.nextId + 1 }, u')

/-- `RefreshTokenRepository.get_by_token_hash`: lookup in any state. -/
def get_by_token_hash (db : DB) (token_hash : String) : Option RefreshToken :=
  db.tokens.find? (fun r => r.token_hash == token_hash)

/-- `RefreshTokenRepository.get_valid_by_token_hash`: token only if
`revoked_at IS NULL` and `expires_at > utcnow()`. -/
def get_valid_by_token_hash (db : DB) (now : Int) (token_hash : String) :
    Option RefreshToken :=
  db.tokens.find?
    (fun r => r.token_hash == token_hash && r.revoked_at == none
      && decide (now < r.expires_at))

/-- `RefreshTokenRepository.create`. -/
def token_create (db : DB) (t : RefreshToken) : DB × RefreshToken :=
  let t' : RefreshToken := { t with id := db.nextId }
  ({ db with tokens := db.tokens ++ [t'], nextId := db.nextId + 1 }, t')

/-- `RefreshTokenRepository.revoke`: "Set revoked_at to now." on the given
record — unconditionally, whether or not it was already revoked. -/
def token_revoke (db : DB) (now : Int) (tokId : Nat) : DB :=
  { db with
    tokens := db.tokens.map
      (fun r => if r.id == tokId then { r with revoked_at := some now } else r) }

/-- `LoginAttemptRepository.create`: append-only ledger write. -/
def attempt_create (db : DB) (a : LoginAttempt) : DB :=
  { db with attempts := db.attempts ++ [a] }

/-- `LoginAttemptRepository.count_recent_failures`: failed attempts for the
account with `attempted_at > utcnow() - minutes`. -/
def count_recent_failures (db : DB) (now : Int) (user_id : Nat) (minutes : Int) :
    Nat :=
  (db.attempts.filter
    (fun a => a.user_id == some user_id && a.success == false
      && decide (now - minutes < a.attempted_at))).length

/-- `ProjectRepository.create`. -/
def project_create (db : DB) (user_id : Nat) (name : String)
    (description : Option String) (tags : List String) : DB × Project :=
  let p : Project :=
    { id := db.nextId, user_id := user_id, name := name,
      description := description, tags := tags, is_default := false }
  ({ db with projects := db.projects ++ [p], nextId := db.nextId + 1 }, p)

/-- `ProjectRepository.set_as_default`: clear every default flag for the user,
then set it on the named project. -/
def project_set_as_default (db : DB) (user_id : Nat) (project_id : Nat) : DB :=
  { db with
    projects := db.projects.map
      (fun p =>
        if p.user_id == user_id then
          { p with is_default := p.id == project_id }
        else p) }

/-! ## Utilities: password policy, token codec, OAuth state -/

/-- The fixed punctuation set of `validate_password_strength`
(`app/utils/password.py`): the characters matched by the regex
character class for the special-character rule. -/
def specialChars : List Char := "!@#$%^&*()_+-=[]\x7b\x7d|;:,.<>?".data

/-- `validate_password_strength` (`app/utils/password.py`): returns
`(is_valid, error_message)`, checking the rules in order
length, uppercase, lowercase, digit, special character.  Python's
`re.search` with ASCII classes corresponds to `Char.isUpper` etc., which
are ASCII-range predicates. -/
def validate_password_strength (password : String) : Bool × Option String :=
  if password.length < 8 then
    (false, some "Password must be at least 8 characters long")
  else if !password.data.any Char.isUpper then
    (false, some "Password must contain at least one uppercase letter")
  else if !password.data.any Char.isLower then
    (false, some "Password must contain at least one lowercase letter")
  else if !password.data.any Char.isDigit then
    (false, some "Password must contain at least one number")
  else if !password.data.any (fun c => specialChars.contains c) then
    (false, some "Password must contain at least one special character (!@#$%^&*()_+-=[]\x7b\x7d|;:,.<>?)")
  else
    (true, none)

/-- Claim set of an access token (`app/utils/jwt.py`, `create_access_token`):
the payload `\x7bsub, email, exp, iat\x7d`; the JWT signing/encoding step
is abstracted away, the claims are kept. -/
structure AccessToken where
  sub : Nat
  email : String
  exp : Int
  iat : Int
deriving DecidableEq, Repr

/-- `settings.ACCESS_TOKEN_EXPIRE_MINUTES` (`app/config.py`). -/
def ACCESS_TOKEN_EXPIRE_MINUTES : Int := 30

/-- `settings.REFRESH_TOKEN_EXPIRE_DAYS` (`app/config.py`), converted to
the minute time unit of this embedding. -/
def REFRESH_TOKEN_EXPIRE_DAYS_IN_MINUTES : Int := 7 * 24 * 60

/-- `create_access_token` (`app/utils/jwt.py`). -/
def create_access_token (now : Int) (user_id : Nat) (email : String) :
    AccessToken :=
  { sub := user_id, email := email,
    exp := now + ACCESS_TOKEN_EXPIRE_MINUTES, iat := now }

/-- The in-memory OAuth-state store (`app/utils/oauth_state.py`,
`_state_store : dict[str, datetime]`): an association list with unique keys,
mapping the opaque state string to its expiry instant. -/
abbrev StateStore : Type := List (String × Int)

/-- `generate_state` (`app/utils/oauth_state.py`): store the fresh random
state (supplied as `fresh`) with a 10-minute expiry.  Dict assignment
replaces any entry under the same key. -/
def generate_state (store : StateStore) (now : Int) (fresh : String) :
    StateStore × String :=
  ((fresh, now + 10) :: List.filter (fun e => e.1 != fresh) store, fresh)

/-- `validate_state` (`app/utils/oauth_state.py`): absent key returns false;
a present key is popped unconditionally and the result is whether `utcnow()`
is still before the stored expiry. -/
def validate_state (store : StateStore) (now : Int) (s : String) :
    StateStore × Bool :=
  match List.find? (fun e => e.1 == s) store with
  | none => (store, false)
  | some kv => (List.filter (fun e => e.1 != s) store, decide (now < kv.2))

/-- `cleanup_expired_states` (`app/utils/oauth_state.py`). -/
def cleanup_expired_states (store : StateStore) (now : Int) : StateStore :=
  List.filter (fun e => !decide (e.2 < now)) store

/-! ## Error taxonomy

`app/services/exceptions.py` (AuthenticationError, AccountLockedError,
ConflictError) plus the `ValueError` that `AuthService.sign_up` raises for a
weak password.  Each Python class is a separate constructor — none inherits
from another, so the kinds are distinguishable by construction. -/

inductive AuthError where
  | authenticationError (message : String)
  | accountLockedError (message : String)
  | conflictError (message : String) (code : Option String)
  | valueError (message : Option String)
deriving DecidableEq, Repr

/-! ## AuthService (`app/services/auth_service.py`)

Each method takes the abstract crypto primitives, the store, the current
instant, the request data and the freshly generated refresh secret, and
returns the updated store together with the outcome. -/

/-- `AuthService._check_account_locked`: at least 5 failed attempts in the
last 15 minutes. -/
def check_account_locked (db : DB) (now : Int) (user_id : Nat) : Bool :=
  decide (count_recent_failures db now user_id 15 ≥ 5)

/-- `AuthService._record_attempt`. -/
def record_attempt (db : DB) (now : Int) (user_id : Option Nat)
    (email ip : String) (ua : Option String) (success : Bool)
    (failure_reason : Option String) : DB :=
  attempt_create db
    { user_id := user_id, email := email, ip_address := ip, user_agent := ua,
      success := success, failure_reason := failure_reason,
      attempted_at := now }

/-- `AuthService.sign_up`: validate password strength, reject a duplicate
email, create the user, provision and mark the default project, issue the
token pair and persist the refresh record. -/
def sign_up (hashPwd hashTok : String → String) (db : DB) (now : Int)
    (email : String) (full_name : Option String) (password : String)
    (ip : String) (ua : Option String) (freshPlain : String) :
    DB × Except AuthError (User × AccessToken × String) :=
  let v := validate_password_strength password
  if v.1 = false then
    (db, .error (.valueError v.2))
  else
    match get_by_email db email with
    | some _ => (db, .error (.conflictError "Email already registered" none))
    | none =>
      let (db1, user) := user_create db
        { id := 0, email := email, full_name := full_name,
          password_hash := some (hashPwd password),
          auth_provider := .email, google_id := none, is_active := true }
      let (db2, default_project) := project_create db1 user.id "My Documents"
        (some "Your personal document collection") []
      let db3 := project_set_as_default db2 user.id default_project.id
      let access_token := create_access_token now user.id user.email
      let (db4, _) := token_create db3
        { id := 0, user_id := user.id, token_hash := hashTok freshPlain,
          expires_at := now + REFRESH_TOKEN_EXPIRE_DAYS_IN_MINUTES,
          created_at := now, revoked_at := none,
          ip_address := some ip, user_agent := ua }
      (db4, .ok (user, access_token, freshPlain))

/-- `AuthService.sign_in`: user lookup, lockout check, active check,
provider check, password verification, then issuance; every failed check
records an attempt with its reason before raising. -/
def sign_in (hashTok : String → String)
    (verifyPwd : String → Option String → Bool)
    (db : DB) (now : Int) (email password ip : String) (ua : Option String)
    (freshPlain : String) :
    DB × Except AuthError (User × AccessToken × String) :=
  match get_by_email db email with
  | none =>
    (record_attempt db now none email ip ua false (some "user_not_found"),
     .error (.authenticationError "Invalid email or password"))
  | some user =>
    if check_account_locked db now user.id then
      (record_attempt db now (some user.id) email ip ua false
        (some "account_locked"),
       .error (.accountLockedError
         "Account temporarily locked due to too many failed attempts"))
    else if !user.is_active then
      (record_attempt db now (some user.id) email ip ua false
        (some "account_inactive"),
       .error (.authenticationError "Account is inactive"))
    else if user.auth_provider ≠ AuthProvider.email then
      (record_attempt db now (some user.id) email ip ua false
        (some "wrong_provider"),
       .error (.authenticationError
         ("Please sign in with " ++ user.auth_provider.value)))
    else if !verifyPwd password user.password_hash then
      (record_attempt db now (some user.id) email ip ua false
        (some "invalid_password"),
       .error (.authenticationError "Invalid email or password"))
    else
      let db1 := record_attempt db now (some user.id) email ip ua true none
      let access_token := create_access_token now user.id user.email
      let (db2, _) := token_create db1
        { id := 0, user_id := user.id, token_hash := hashTok freshPlain,
          expires_at := now + REFRESH_TOKEN_EXPIRE_DAYS_IN_MINUTES,
          created_at := now, revoked_at := none,
          ip_address := some ip, user_agent := ua }
      (db2, .ok (user, access_token, freshPlain))

/-- `AuthService.refresh_tokens`: digest the incoming plaintext, look up a
valid record, load the owning user, revoke the old record, issue and persist
the new pair. -/
def refresh_tokens (hashTok : String → String) (db : DB) (now : Int)
    (refresh_token freshPlain ip : String) (ua : Option String) :
    DB × Except AuthError (AccessToken × String) :=
  let token_hash := hashTok refresh_token
  match get_valid_by_token_hash db now token_hash with
  | none => (db, .error (.authenticationError "Invalid or expired refresh token"))
  | some token_record =>
    match get_by_id db token_record.user_id with
    | none => (db, .error (.authenticationError "User not found or inactive"))
    | some user =>
      if !user.is_active then
        (db, .error (.authenticationError "User not found or inactive"))
      else
        let db1 := token_revoke db now token_record.id
        let new_access_token := create_access_token now user.id user.email
        let (db2, _) := token_create db1
          { id := 0, user_id := user.id, token_hash := hashTok freshPlain,
            expires_at := now + REFRESH_TOKEN_EXPIRE_DAYS_IN_MINUTES,
            created_at := now, revoked_at := none,
            ip_address := some ip, user_agent := ua }
        (db2, .ok (new_access_token, freshPlain))

/-- `AuthService.sign_out`: look up the digest in any state and revoke only
when found and not yet revoked.  The source raises nothing on any path, which
is why the return type is a plain `DB` with no error component. -/
def sign_out (hashTok : String → String) (db : DB) (now : Int)
    (refresh_token : String) : DB :=
  match get_by_token_hash db (hashTok refresh_token) with
  | none => db
  | some token_record =>
    if token_record.revoked_at = none then
      token_revoke db now token_record.id
    else
      db

/-- `OAuthService.get_or_create_google_user`
(`app/services/oauth_service.py`): find by google id; else conflict on an
existing email; else create a Google-auth user.  Returns
`(user, access_token, refresh_plaintext, is_new_user)`. -/
def get_or_create_google_user (hashTok : String → String) (db : DB)
    (now : Int) (google_id email : String) (full_name : Option String)
    (ip : String) (ua : Option String) (freshPlain : String) :
    DB × Except AuthError (User × AccessToken × String × Bool) :=
  match get_by_google_id db google_id with
  | some user =>
    let access_token := create_access_token now user.id user.email
    let (db1, _) := token_create db
      { id := 0, user_id := user.id, token_hash := hashTok freshPlain,
        expires_at := now + REFRESH_TOKEN_EXPIRE_DAYS_IN_MINUTES,
        created_at := now, revoked_at := none,
        ip_address := some ip, user_agent := ua }
    (db1, .ok (user, access_token, freshPlain, false))
  | none =>
    match get_by_email db email with
    | some _ =>
      (db, .error (.conflictError
        "This email is registered with a password. Please sign in with email."
        (some "EMAIL_EXISTS_DIFFERENT_PROVIDER")))
    | none =>
      let (db1, user) := user_create db
        { id := 0, email := email, full_name := full_name,
          password_hash := none, auth_provider := .google,
          google_id := some google_id, is_active := true }
      let access_token := create_access_token now user.id user.email
      let (db2, _) := token_create db1
        { id := 0, user_id := user.id, token_hash := hashTok freshPlain,
          expires_at := now + REFRESH_TOKEN_EXPIRE_DAYS_IN_MINUTES,
          created_at := now, revoked_at := none,
          ip_address := some ip, user_agent := ua }
      (db2, .ok (user, access_token, freshPlain, true))

/-! ## Theorems -/

/-- C9: `validate_password_strength` accepts exactly the passwords with at
least 8 characters, an uppercase letter, a lowercase letter, a digit and a
symbol from the fixed punctuation set; a rejection carries the message of the
first violated rule in the order length, uppercase, lowercase, digit,
symbol, so the reported reason is a deterministic function of the input. -/
theorem password_strength_policy (p : String) :
    ((validate_password_strength p).1 = true ↔
      (8 ≤ p.length ∧ p.data.any Char.isUpper = true ∧
        p.data.any Char.isLower = true ∧ p.data.any Char.isDigit = true ∧
        p.data.any (fun c => specialChars.contains c) = true)) ∧
    ((validate_password_strength p).1 = false ↔
      (validate_password_strength p).2 ≠ none) ∧
    ((validate_password_strength p).2 =
        some "Password must be at least 8 characters long" ↔
      p.length < 8) ∧
    ((validate_password_strength p).2 =
        some "Password must contain at least one uppercase letter" ↔
      (8 ≤ p.length ∧ p.data.any Char.isUpper = false)) ∧
    ((validate_password_strength p).2 =
        some "Password must contain at least one lowercase letter" ↔
      (8 ≤ p.length ∧ p.data.any Char.isUpper = true ∧
        p.data.any Char.isLower = false)) ∧
    ((validate_password_strength p).2 =
        some "Password must contain at least one number" ↔
      (8 ≤ p.length ∧ p.data.any Char.isUpper = true ∧
        p.data.any Char.isLower = true ∧ p.data.any Char.isDigit = false)) ∧
    ((validate_password_strength p).2 =
        some "Password must contain at least one special character (!@#$%^&*()_+-=[]\x7b\x7d|;:,.<>?)" ↔
      (8 ≤ p.length ∧ p.data.any Char.isUpper = true ∧
        p.data.any Char.isLower = true ∧ p.data.any Char.isDigit = true ∧
        p.data.any (fun c => specialChars.contains c) = false)) := by
  unfold validate_password_strength
  split_ifs with h1 h2 h3 h4 h5 <;> simp_all

/-- C8: OAuth state validation is single-use.  An absent token yields false
and leaves the store alone; a present token is removed unconditionally and
validation succeeds exactly when the stored expiry is still in the future;
re-validating after any validation yields false (in particular a second
validate of the same token, and a validate of an expired-but-unconsumed
token, both return false). -/
theorem validate_state_single_use (store : StateStore) (now now2 : Int)
    (s : String) :
    (List.find? (fun e => e.1 == s) store = none →
      validate_state store now s = (store, false)) ∧
    (∀ kv, List.find? (fun e => e.1 == s) store = some kv →
      ((validate_state store now s).1 =
          List.filter (fun e => e.1 != s) store ∧
        ((validate_state store now s).2 = true ↔ now < kv.2))) ∧
    (validate_state (validate_state store now s).1 now2 s).2 = false := by
  refine ⟨?_, ?_, ?_⟩
  · intro h
    simp [validate_state, h]
  · intro kv h
    exact ⟨by simp [validate_state, h], by simp [validate_state, h]⟩
  · cases h : List.find? (fun e => e.1 == s) store with
    | none => simp [validate_state, h]
    | some kv =>
      have hnone : List.find? (fun e => e.1 == s)
          (List.filter (fun e => e.1 != s) store) = none := by
        rw [List.find?_eq_none]
        intro x hx
        have hx2 := (List.mem_filter.mp hx).2
        simp_all
      simp [validate_state, h, hnone]

/-- Store used to exercise `validate_state` on concrete inputs. -/
def exStateStore : StateStore := [("s1", 10), ("s2", 3)]

/-- Witness for C8 at a concrete store: a missing token fails and leaves the
store alone; a present unexpired token is consumed with success iff the
expiry is in the future; revalidation fails. -/
theorem validate_state_single_use_witness :
    validate_state exStateStore 5 "absent" = (exStateStore, false) ∧
    (validate_state exStateStore 5 "s1").1 =
      List.filter (fun e => e.1 != "s1") exStateStore ∧
    ((validate_state exStateStore 5 "s1").2 = true ↔ (5 : Int) < 10) ∧
    (validate_state (validate_state exStateStore 5 "s1").1 6 "s1").2 = false := by
  refine ⟨?_, ?_, ?_, ?_⟩
  · exact (validate_state_single_use exStateStore 5 6 "absent").1 (by decide)
  · exact ((validate_state_single_use exStateStore 5 6 "s1").2.1 ("s1", 10)
      (by decide)).1
  · exact ((validate_state_single_use exStateStore 5 6 "s1").2.1 ("s1", 10)
      (by decide)).2
  · exact (validate_state_single_use exStateStore 5 6 "s1").2.2

/-- An already-revoked refresh-token record (revoked at instant 5). -/
def exRevokedTok : RefreshToken :=
  { id := 0, user_id := 0, token_hash := "h", expires_at := 100,
    created_at := 0, revoked_at := some 5 }

/-- A store holding only the already-revoked record. -/
def exRevokedDb : DB := { tokens := [exRevokedTok] }

/-- C6 counterexample: `revoke` on an already-revoked record is not a no-op —
the stored revocation timestamp changes from 5 to the new current instant 10,
so the store differs from what it was before the call. -/
theorem token_revoke_counterexample :
    exRevokedTok.revoked_at = some 5 ∧
    (token_revoke exRevokedDb 10 0).tokens =
      [{ exRevokedTok with revoked_at := some 10 }] ∧
    token_revoke exRevokedDb 10 0 ≠ exRevokedDb := by decide

/-- C6 amended: `revoke` unconditionally overwrites the record's revocation
timestamp with the current instant.  An already-revoked record therefore
stays revoked (its `revoked_at` remains non-null, so it is still observable
as revoked), but its previous timestamp is replaced rather than preserved. -/
theorem token_revoke_overwrites_timestamp (db : DB) (now t0 : Int)
    (p : RefreshToken) (hp : p ∈ db.tokens) (hrev : p.revoked_at = some t0) :
    ({ p with revoked_at := some now } ∈ (token_revoke db now p.id).tokens) ∧
    (∀ q ∈ (token_revoke db now p.id).tokens, q.id = p.id →
      (q.revoked_at = some now ∧ q.revoked_at ≠ none)) := by
  constructor
  · exact List.mem_map.mpr ⟨p, hp, by simp⟩
  · intro q hq hid
    rcases List.mem_map.mp hq with ⟨r, hr, rfl⟩
    by_cases h : r.id == p.id
    · simp [h]
    · simp only [h, if_false] at hid ⊢
      exact absurd hid (by simpa using h)

/-- Witness for C6's amended statement on the concrete revoked record. -/
theorem token_revoke_overwrites_timestamp_witness :
    exRevokedTok ∈ exRevokedDb.tokens ∧
    exRevokedTok.revoked_at = some 5 ∧
    { exRevokedTok with revoked_at := some 10 } ∈
      (token_revoke exRevokedDb 10 exRevokedTok.id).tokens :=
  ⟨by decide, by decide,
    (token_revoke_overwrites_timestamp exRevokedDb 10 5 exRevokedTok
      (by decide) (by decide)).1⟩

/-- Revoking a record does not change token hashes, so a lookup by digest
after a revoke finds the same record, with only its `revoked_at` updated. -/
theorem get_by_token_hash_token_revoke (db : DB) (now : Int) (tokId : Nat)
    (h : String) :
    get_by_token_hash (token_revoke db now tokId) h =
      (get_by_token_hash db h).map
        (fun r => if r.id == tokId then { r with revoked_at := some now }
          else r) := by
  unfold get_by_token_hash token_revoke
  rw [List.find?_map]
  have hpred : ((fun r : RefreshToken => r.token_hash == h) ∘
      (fun r => if r.id == tokId then { r with revoked_at := some now }
        else r)) = (fun r : RefreshToken => r.token_hash == h) := by
    funext r
    by_cases hid : r.id = tokId <;> simp [hid]
  rw [hpred]

/-- C7: `sign_out` raises on no path (its result type is a plain store, with
no error component, mirroring the exception-free source).  An unknown digest
and an already-revoked record are silent no-ops leaving the store unchanged;
a live record gets its revocation timestamp set and nothing else changes;
and a second `sign_out` with the same token is always a no-op. -/
theorem sign_out_idempotent (hashTok : String → String) (db : DB)
    (now now2 : Int) (t : String) :
    (match get_by_token_hash db (hashTok t) with
     | none => sign_out hashTok db now t = db
     | some r =>
       if r.revoked_at = none then
         (sign_out hashTok db now t).tokens =
           db.tokens.map (fun q => if q.id == r.id then
             { q with revoked_at := some now } else q) ∧
         { r with revoked_at := some now } ∈ (sign_out hashTok db now t).tokens ∧
         (sign_out hashTok db now t).users = db.users ∧
         (sign_out hashTok db now t).attempts = db.attempts
       else sign_out hashTok db now t = db) ∧
    sign_out hashTok (sign_out hashTok db now t) now2 t =
      sign_out hashTok db now t := by
  constructor
  · cases h : get_by_token_hash db (hashTok t) with
    | none => simp [sign_out, h]
    | some r =>
      by_cases hrev : r.revoked_at = none
      · simp only [sign_out, h, hrev, if_true]
        refine ⟨rfl, ?_, rfl, rfl⟩
        exact List.mem_map.mpr ⟨r, List.mem_of_find?_eq_some h, by simp⟩
      · simp [sign_out, h, hrev]
  · cases h : get_by_token_hash db (hashTok t) with
    | none => simp [sign_out, h]
    | some r =>
      by_cases hrev : r.revoked_at = none
      · have h1 : sign_out hashTok db now t = token_revoke db now r.id := by
          simp [sign_out, h, hrev]
        have h2 : get_by_token_hash (token_revoke db now r.id) (hashTok t) =
            some { r with revoked_at := some now } := by
          rw [get_by_token_hash_token_revoke, h]
          simp
        rw [h1]
        simp [sign_out, h2]
      · simp [sign_out, h, hrev]

/-- A live (never revoked, unexpired) account with a stored password digest. -/
def exUser : User :=
  { id := 0, email := "a@x", full_name := none, password_hash := some "ph",
    auth_provider := .email, google_id := none, is_active := true }

/-- One failed login attempt against `exUser` at instant 10. -/
def exFailedAttempt : LoginAttempt :=
  { user_id := some 0, email := "a@x", ip_address := "ip", user_agent := none,
    success := false, failure_reason := some "invalid_password",
    attempted_at := 10 }

/-- A store where `exUser` has five recent failed attempts. -/
def exLockedDb : DB :=
  { users := [exUser], attempts := List.replicate 5 exFailedAttempt,
    nextId := 1 }

/-- C2: once an account has at least 5 failed attempts in the trailing 15
minutes, `sign_in` fails with `AccountLockedError` — a constructor distinct
from `AuthenticationError` — and records an `account_locked` failed attempt.
The password and the verifier are arbitrary, so the outcome is independent
of password correctness: the lockout check precedes verification. -/
theorem sign_in_lockout (hashTok : String → String)
    (verifyPwd : String → Option String → Bool) (db : DB) (now : Int)
    (email password ip : String) (ua : Option String) (freshPlain : String)
    (u : User) (hu : get_by_email db email = some u)
    (hl : 5 ≤ count_recent_failures db now u.id 15) :
    sign_in hashTok verifyPwd db now email password ip ua freshPlain =
      (record_attempt db now (some u.id) email ip ua false
        (some "account_locked"),
       .error (.accountLockedError
         "Account temporarily locked due to too many failed attempts")) ∧
    (sign_in hashTok verifyPwd db now email password ip ua freshPlain).1.attempts =
      db.attempts ++
        [{ user_id := some u.id, email := email, ip_address := ip,
           user_agent := ua, success := false,
           failure_reason := some "account_locked", attempted_at := now }] ∧
    (∀ m, AuthError.accountLockedError
        "Account temporarily locked due to too many failed attempts" ≠
      AuthError.authenticationError m) := by
  have hlock : check_account_locked db now u.id = true := by
    simp [check_account_locked, hl]
  refine ⟨?_, ?_, ?_⟩
  · simp [sign_in, hu, hlock]
  · simp [sign_in, hu, hlock, record_attempt, attempt_create]
  · intro m hcon
    exact AuthError.noConfusion hcon

/-- Witness for C2: with five recent failures on record, a sixth attempt with
a verifier that accepts every password (i.e., the password is correct) still
locks out. -/
theorem sign_in_lockout_witness :
    get_by_email exLockedDb "a@x" = some exUser ∧
    5 ≤ count_recent_failures exLockedDb 12 exUser.id 15 ∧
    sign_in (fun s => s) (fun _ _ => true) exLockedDb 12 "a@x" "correct"
        "ip" none "fresh" =
      (record_attempt exLockedDb 12 (some exUser.id) "a@x" "ip" none false
        (some "account_locked"),
       .error (.accountLockedError
         "Account temporarily locked due to too many failed attempts")) :=
  ⟨by decide, by decide,
    (sign_in_lockout (fun s => s) (fun _ _ => true) exLockedDb 12 "a@x"
      "correct" "ip" none "fresh" exUser (by decide) (by decide)).1⟩

/-- C3: an unknown email and a known email with a wrong password both
produce `AuthenticationError` carrying the one literal
"Invalid email or password", character for character, so the caller cannot
tell account existence from password failure. -/
theorem sign_in_uniform_message (hashTok : String → String)
    (verifyPwd : String → Option String → Bool) (db : DB) (now : Int)
    (email1 email2 password1 password2 ip : String) (ua : Option String)
    (fresh1 fresh2 : String) (u : User)
    (h1 : get_by_email db email1 = none)
    (hu : get_by_email db email2 = some u)
    (hnl : count_recent_failures db now u.id 15 < 5)
    (hact : u.is_active = true)
    (hprov : u.auth_provider = AuthProvider.email)
    (hpw : verifyPwd password2 u.password_hash = false) :
    (sign_in hashTok verifyPwd db now email1 password1 ip ua fresh1).2 =
      .error (.authenticationError "Invalid email or password") ∧
    (sign_in hashTok verifyPwd db now email2 password2 ip ua fresh2).2 =
      .error (.authenticationError "Invalid email or password") := by
  have hlock : check_account_locked db now u.id = false := by
    simp [check_account_locked]
    omega
  constructor
  · simp [sign_in, h1]
  · simp [sign_in, hu, hlock, hact, hprov, hpw]

/-- A store holding only `exUser`, with a clean attempt ledger. -/
def exCleanDb : DB := { users := [exUser], nextId := 1 }

/-- Witness for C3 at a concrete store: both failure modes produce the same
message text. -/
theorem sign_in_uniform_message_witness :
    (sign_in (fun s => s) (fun _ _ => false) exCleanDb 0 "unknown@x" "pw"
        "ip" none "f1").2 =
      .error (.authenticationError "Invalid email or password") ∧
    (sign_in (fun s => s) (fun _ _ => false) exCleanDb 0 "a@x" "wrong"
        "ip" none "f2").2 =
      .error (.authenticationError "Invalid email or password") :=
  sign_in_uniform_message (fun s => s) (fun _ _ => false) exCleanDb 0
    "unknown@x" "a@x" "pw" "wrong" "ip" none "f1" "f2" exUser (by decide)
    (by decide) (by decide) (by decide) (by decide) (by decide)

/-- C5: sign-up rejects a duplicate email with `ConflictError` and creates no
second account row, and within one call the password-strength check runs
before the duplicate-email check, so a weak password is reported as a
validation error (`ValueError`) even against an already-taken email. -/
theorem sign_up_duplicate_and_order (hashPwd hashTok : String → String)
    (db db2 : DB) (now now2 now3 : Int) (email : String)
    (fn1 fn2 fn3 : Option String) (p1 p2 pw : String)
    (ip1 ip2 ip3 : String) (ua1 ua2 ua3 : Option String)
    (fresh1 fresh2 fresh3 : String) (email2 : String) (u2 : User)
    (hstrong1 : (validate_password_strength p1).1 = true)
    (hfree : get_by_email db email = none)
    (hstrong2 : (validate_password_strength p2).1 = true)
    (hweak : (validate_password_strength pw).1 = false)
    (htaken : get_by_email db2 email2 = some u2) :
    (sign_up hashPwd hashTok db now email fn1 p1 ip1 ua1 fresh1).2 =
      .ok ({ id := db.nextId, email := email, full_name := fn1,
             password_hash := some (hashPwd p1), auth_provider := .email,
             google_id := none, is_active := true },
           create_access_token now db.nextId email, fresh1) ∧
    (sign_up hashPwd hashTok db now email fn1 p1 ip1 ua1 fresh1).1.users =
      db.users ++
        [{ id := db.nextId, email := email, full_name := fn1,
           password_hash := some (hashPwd p1), auth_provider := .email,
           google_id := none, is_active := true }] ∧
    sign_up hashPwd hashTok
        (sign_up hashPwd hashTok db now email fn1 p1 ip1 ua1 fresh1).1
        now2 email fn2 p2 ip2 ua2 fresh2 =
      ((sign_up hashPwd hashTok db now email fn1 p1 ip1 ua1 fresh1).1,
       .error (.conflictError "Email already registered" none)) ∧
    sign_up hashPwd hashTok db2 now3 email2 fn3 pw ip3 ua3 fresh3 =
      (db2, .error (.valueError (validate_password_strength pw).2)) := by
  have husers : (sign_up hashPwd hashTok db now email fn1 p1 ip1 ua1
      fresh1).1.users =
      db.users ++
        [{ id := db.nextId, email := email, full_name := fn1,
           password_hash := some (hashPwd p1), auth_provider := .email,
           google_id := none, is_active := true }] := by
    simp [sign_up, hstrong1, hfree, user_create, project_create,
      project_set_as_default, token_create]
  refine ⟨?_, husers, ?_, ?_⟩
  · simp [sign_up, hstrong1, hfree, user_create, project_create,
      project_set_as_default, token_create]
  · have hdup : get_by_email
        (sign_up hashPwd hashTok db now email fn1 p1 ip1 ua1 fresh1).1 email =
        some { id := db.nextId, email := email, full_name := fn1,
               password_hash := some (hashPwd p1), auth_provider := .email,
               google_id := none, is_active := true } := by
      rw [get_by_email] at hfree ⊢
      rw [husers, List.find?_append, hfree]
      simp
    set db1 := (sign_up hashPwd hashTok db now email fn1 p1 ip1 ua1 fresh1).1
      with hdb1
    simp [sign_up, hstrong2, hdup]
  · simp [sign_up, hweak]

/-- The empty store. -/
def emptyDb : DB := {}

/-- Witness for C5: a concrete strong-password sign-up succeeds, the repeat
with the same email fails with the conflict error and leaves the store as it
was, and a weak password against a taken email is a validation error. -/
theorem sign_up_duplicate_and_order_witness :
    (validate_password_strength "Aa1!aaaa").1 = true ∧
    (validate_password_strength "weak").1 = false ∧
    get_by_email exCleanDb "a@x" = some exUser ∧
    (sign_up (fun s => s) (fun s => s) emptyDb 0 "n@x.com" none "Aa1!aaaa"
        "ip" none "r1").2 =
      .ok ({ id := 0, email := "n@x.com", full_name := none,
             password_hash := some "Aa1!aaaa", auth_provider := .email,
             google_id := none, is_active := true },
           create_access_token 0 0 "n@x.com", "r1") ∧
    sign_up (fun s => s) (fun s => s)
        (sign_up (fun s => s) (fun s => s) emptyDb 0 "n@x.com" none
          "Aa1!aaaa" "ip" none "r1").1
        1 "n@x.com" none "Bb2@bbbb" "ip" none "r2" =
      ((sign_up (fun s => s) (fun s => s) emptyDb 0 "n@x.com" none "Aa1!aaaa"
          "ip" none "r1").1,
       .error (.conflictError "Email already registered" none)) ∧
    sign_up (fun s => s) (fun s => s) exCleanDb 2 "a@x" none "weak" "ip"
        none "r3" =
      (exCleanDb,
       .error (.valueError (validate_password_strength "weak").2)) := by
  refine ⟨by decide, by decide, by decide, ?_, ?_, ?_⟩
  · exact (sign_up_duplicate_and_order (fun s => s) (fun s => s) emptyDb
      exCleanDb 0 1 2 "n@x.com" none none none "Aa1!aaaa" "Bb2@bbbb" "weak"
      "ip" "ip" "ip" none none none "r1" "r2" "r3" "a@x" exUser (by decide)
      (by decide) (by decide) (by decide) (by decide)).1
  · exact (sign_up_duplicate_and_order (fun s => s) (fun s => s) emptyDb
      exCleanDb 0 1 2 "n@x.com" none none none "Aa1!aaaa" "Bb2@bbbb" "weak"
      "ip" "ip" "ip" none none none "r1" "r2" "r3" "a@x" exUser (by decide)
      (by decide) (by decide) (by decide) (by decide)).2.2.1
  · exact (sign_up_duplicate_and_order (fun s => s) (fun s => s) emptyDb
      exCleanDb 0 1 2 "n@x.com" none none none "Aa1!aaaa" "Bb2@bbbb" "weak"
      "ip" "ip" "ip" none none none "r1" "r2" "r3" "a@x" exUser (by decide)
      (by decide) (by decide) (by decide) (by decide)).2.2.2

/-- An account created by Google OAuth, bound to external subject "G1". -/
def exGoogleUser : User :=
  { id := 0, email := "g@x", full_name := none, password_hash := none,
    auth_provider := .google, google_id := some "G1", is_active := true }

/-- A store holding only the Google-auth account. -/
def exGoogleDb : DB := { users := [exGoogleUser], nextId := 1 }

/-- C4 counterexample: subject id "G2" matches no account, and the submitted
email is held by an account whose auth-method is the SAME external method
(google) — yet the code still raises ConflictError with
EMAIL_EXISTS_DIFFERENT_PROVIDER instead of creating an account with
is_new = true.  The source checks bare email existence, not a differing
auth-method, so the claim's "if and only if ... under a different
auth-method" is false here. -/
theorem oauth_conflict_counterexample :
    get_by_google_id exGoogleDb "G2" = none ∧
    get_by_email exGoogleDb "g@x" = some exGoogleUser ∧
    exGoogleUser.auth_provider = AuthProvider.google ∧
    get_or_create_google_user (fun s => s) exGoogleDb 0 "G2" "g@x" none "ip"
        none "fresh" =
      (exGoogleDb, .error (.conflictError
        "This email is registered with a password. Please sign in with email."
        (some "EMAIL_EXISTS_DIFFERENT_PROVIDER"))) :=
  ⟨rfl, rfl, rfl, rfl⟩

/-- C4 amended: when no account matches the external subject id, the
operation raises ConflictError with code EMAIL_EXISTS_DIFFERENT_PROVIDER —
creating or modifying no account — if and only if ANY existing account holds
the submitted email, regardless of that account's auth-method; only when the
email is entirely unknown does it create a new account with
auth-method = google, the given subject id, and is_new = true. -/
theorem oauth_get_or_create_email_conflict (hashTok : String → String)
    (db : DB) (now : Int) (google_id email : String)
    (full_name : Option String) (ip : String) (ua : Option String)
    (freshPlain : String)
    (hng : get_by_google_id db google_id = none) :
    ((∃ u, get_by_email db email = some u) ↔
      get_or_create_google_user hashTok db now google_id email full_name ip
          ua freshPlain =
        (db, .error (.conflictError
          "This email is registered with a password. Please sign in with email."
          (some "EMAIL_EXISTS_DIFFERENT_PROVIDER")))) ∧
    (get_by_email db email = none →
      (get_or_create_google_user hashTok db now google_id email full_name ip
          ua freshPlain).1.users =
        db.users ++
          [{ id := db.nextId, email := email, full_name := full_name,
             password_hash := none, auth_provider := .google,
             google_id := some google_id, is_active := true }] ∧
      (get_or_create_google_user hashTok db now google_id email full_name ip
          ua freshPlain).2 =
        .ok ({ id := db.nextId, email := email, full_name := full_name,
               password_hash := none, auth_provider := .google,
               google_id := some google_id, is_active := true },
             create_access_token now db.nextId email, freshPlain, true)) := by
  cases h : get_by_email db email with
  | none =>
    refine ⟨⟨?_, ?_⟩, ?_⟩
    · rintro ⟨u, hu⟩
      exact Option.noConfusion hu
    · intro hcon
      have h2 := congrArg (fun x => x.2) hcon
      simp only [get_or_create_google_user, hng, h, user_create,
        token_create] at h2
      exact absurd h2 (by simp)
    · intro _
      refine ⟨?_, ?_⟩
      · simp [get_or_create_google_user, hng, h, user_create, token_create]
      · simp [get_or_create_google_user, hng, h, user_create, token_create]
  | some u =>
    refine ⟨⟨?_, ?_⟩, ?_⟩
    · intro _
      simp [get_or_create_google_user, hng, h]
    · intro _
      exact ⟨u, rfl⟩
    · intro hcon
      exact Option.noConfusion hcon

/-- Witness for C4's amended statement: the conflict direction at the
concrete same-method collision, and the creation direction on the empty
store. -/
theorem oauth_get_or_create_email_conflict_witness :
    get_or_create_google_user (fun s => s) exGoogleDb 0 "G2" "g@x" none "ip"
        none "fresh" =
      (exGoogleDb, .error (.conflictError
        "This email is registered with a password. Please sign in with email."
        (some "EMAIL_EXISTS_DIFFERENT_PROVIDER"))) ∧
    (get_or_create_google_user (fun s => s) emptyDb 0 "G9" "new@x" none "ip"
        none "fresh").2 =
      .ok ({ id := 0, email := "new@x", full_name := none,
             password_hash := none, auth_provider := .google,
             google_id := some "G9", is_active := true },
           create_access_token 0 0 "new@x", "fresh", true) :=
  ⟨(oauth_get_or_create_email_conflict (fun s => s) exGoogleDb 0 "G2" "g@x"
      none "ip" none "fresh" (by decide)).1.mp ⟨exGoogleUser, by decide⟩,
   ((oauth_get_or_create_email_conflict (fun s => s) emptyDb 0 "G9" "new@x"
      none "ip" none "fresh" (by decide)).2 (by decide)).2⟩

/-- C1: refresh-token rotation is single-use.  For a successful refresh with
plaintext `t` (a valid stored record exists, its owner is active) where the
freshly generated secret is genuinely fresh (`np ≠ t`) and the digest is
collision-free, afterwards every stored record carrying digest
`hashTok t` has its revocation timestamp set, the new record's digest
differs from the old one, and a second refresh with the same plaintext `t`
fails with `AuthenticationError`.  `huniq` is the UNIQUE constraint on the
`token_hash` column. -/
theorem refresh_rotation_single_use (hashTok : String → String)
    (hinj : Function.Injective hashTok)
    (db : DB) (now now2 : Int) (t np np2 ip ip2 : String)
    (ua ua2 : Option String) (r : RefreshToken) (u : User)
    (hfind : get_valid_by_token_hash db now (hashTok t) = some r)
    (huser : get_by_id db r.user_id = some u)
    (hact : u.is_active = true)
    (hfresh : np ≠ t)
    (huniq : ∀ a ∈ db.tokens, ∀ b ∈ db.tokens,
      a.token_hash = b.token_hash → a = b) :
    (refresh_tokens hashTok db now t np ip ua).2 =
      .ok (create_access_token now u.id u.email, np) ∧
    hashTok np ≠ hashTok t ∧
    (∀ q ∈ (refresh_tokens hashTok db now t np ip ua).1.tokens,
      q.token_hash = hashTok t → q.revoked_at = some now) ∧
    (refresh_tokens hashTok (refresh_tokens hashTok db now t np ip ua).1
        now2 t np2 ip2 ua2).2 =
      .error (.authenticationError "Invalid or expired refresh token") := by
  have hne : hashTok np ≠ hashTok t := fun hcon => hfresh (hinj hcon)
  have hr_mem : r ∈ db.tokens := List.mem_of_find?_eq_some hfind
  have hr_pred := List.find?_some hfind
  simp only [Bool.and_eq_true, beq_iff_eq, decide_eq_true_eq] at hr_pred
  obtain ⟨⟨hr_hash, hr_rev⟩, hr_exp⟩ := hr_pred
  have htoks : (refresh_tokens hashTok db now t np ip ua).1.tokens =
      (db.tokens.map (fun q => if q.id == r.id then
        { q with revoked_at := some now } else q)) ++
      [{ id := db.nextId, user_id := u.id, token_hash := hashTok np,
         expires_at := now + REFRESH_TOKEN_EXPIRE_DAYS_IN_MINUTES,
         created_at := now, revoked_at := none, ip_address := some ip,
         user_agent := ua }] := by
    simp [refresh_tokens, hfind, huser, hact, token_create, token_revoke]
  have hrev3 : ∀ q ∈ (refresh_tokens hashTok db now t np ip ua).1.tokens,
      q.token_hash = hashTok t → q.revoked_at = some now := by
    intro q hq hqh
    rw [htoks] at hq
    rcases List.mem_append.mp hq with hq | hq
    · rcases List.mem_map.mp hq with ⟨s, hs, rfl⟩
      by_cases hsid : s.id = r.id
      · simp [hsid]
      · have hbeq : (s.id == r.id) = false := by simpa using hsid
        simp only [hbeq, Bool.false_eq_true, if_false] at hqh ⊢
        have hs_eq : s = r := huniq s hs r hr_mem (hqh.trans hr_hash.symm)
        exact absurd (by rw [hs_eq]) hsid
    · simp only [List.mem_singleton] at hq
      subst hq
      exact absurd hqh hne
  have hnone : get_valid_by_token_hash
      (refresh_tokens hashTok db now t np ip ua).1 now2 (hashTok t) =
      none := by
    rw [get_valid_by_token_hash, List.find?_eq_none]
    intro x hx hpred
    simp only [Bool.and_eq_true, beq_iff_eq, decide_eq_true_eq] at hpred
    obtain ⟨⟨hxh, hxrev⟩, -⟩ := hpred
    rw [hrev3 x hx hxh] at hxrev
    exact Option.noConfusion hxrev
  refine ⟨by simp [refresh_tokens, hfind, huser, hact, token_create],
    hne, hrev3, ?_⟩
  set db1 := (refresh_tokens hashTok db now t np ip ua).1 with hdb1
  simp [refresh_tokens, hnone]

/-- A live, unexpired refresh-token record owned by `exUser`. -/
def exLiveTok : RefreshToken :=
  { id := 1, user_id := 0, token_hash := "t", expires_at := 100,
    created_at := 0, revoked_at := none, ip_address := none,
    user_agent := none }

/-- A store with one active user owning one live refresh-token record. -/
def exTokenDb : DB :=
  { users := [exUser], tokens := [exLiveTok], nextId := 2 }

/-- Witness for C1 on the concrete store: the refresh succeeds and the
replayed refresh with the same plaintext fails with the authentication
error. -/
theorem refresh_rotation_single_use_witness :
    (refresh_tokens (fun s => s) exTokenDb 0 "t" "n" "ip" none).2 =
      .ok (create_access_token 0 exUser.id exUser.email, "n") ∧
    (refresh_tokens (fun s => s)
        (refresh_tokens (fun s => s) exTokenDb 0 "t" "n" "ip" none).1
        1 "t" "n2" "ip2" none).2 =
      .error (.authenticationError "Invalid or expired refresh token") :=
  ⟨(refresh_rotation_single_use (fun s => s) (fun _ _ h => h) exTokenDb 0 1
      "t" "n" "n2" "ip" "ip2" none none exLiveTok exUser (by decide)
      (by decide) (by decide) (by decide) (by decide)).1,
   (refresh_rotation_single_use (fun s => s) (fun _ _ h => h) exTokenDb 0 1
      "t" "n" "n2" "ip" "ip2" none none exLiveTok exUser (by decide)
      (by decide) (by decide) (by decide) (by decide)).2.2.2⟩

/-- C10: a successful refresh preserves ownership — the new record's
`user_id` equals the `user_id` of the record located by digest, the new
access token's subject is that same account id, and the user table is left
untouched. -/
theorem refresh_preserves_ownership (hashTok : String → String) (db : DB)
    (now : Int) (t np ip : String) (ua : Option String)
    (r : RefreshToken) (u : User)
    (hfind : get_valid_by_token_hash db now (hashTok t) = some r)
    (huser : get_by_id db r.user_id = some u)
    (hact : u.is_active = true) :
    u.id = r.user_id ∧
    (refresh_tokens hashTok db now t np ip ua).1.users = db.users ∧
    (refresh_tokens hashTok db now t np ip ua).1.tokens =
      (token_revoke db now r.id).tokens ++
        [{ id := db.nextId, user_id := r.user_id,
           token_hash := hashTok np,
           expires_at := now + REFRESH_TOKEN_EXPIRE_DAYS_IN_MINUTES,
           created_at := now, revoked_at := none, ip_address := some ip,
           user_agent := ua }] ∧
    (refresh_tokens hashTok db now t np ip ua).2 =
      .ok (create_access_token now r.user_id u.email, np) := by
  have hid : u.id = r.user_id := by
    have := List.find?_some huser
    simpa using this
  refine ⟨hid, ?_, ?_, ?_⟩
  · simp [refresh_tokens, hfind, huser, hact, token_create, token_revoke]
  · simp [refresh_tokens, hfind, huser, hact, token_create, token_revoke,
      hid]
  · simp [refresh_tokens, hfind, huser, hact, token_create, hid]

/-- Witness for C10 on the concrete store: the subject of the issued access
token and the owner of the new record are the old record's owner, and the
user table is unchanged. -/
theorem refresh_preserves_ownership_witness :
    exUser.id = exLiveTok.user_id ∧
    (refresh_tokens (fun s => s) exTokenDb 0 "t" "n" "ip" none).1.users =
      exTokenDb.users ∧
    (refresh_tokens (fun s => s) exTokenDb 0 "t" "n" "ip" none).2 =
      .ok (create_access_token 0 exLiveTok.user_id exUser.email, "n") :=
  ⟨(refresh_preserves_ownership (fun s => s) exTokenDb 0 "t" "n" "ip" none
      exLiveTok exUser (by decide) (by decide) (by decide)).1,
   (refresh_preserves_ownership (fun s => s) exTokenDb 0 "t" "n" "ip" none
      exLiveTok exUser (by decide) (by decide) (by decide)).2.1,
   (refresh_preserves_ownership (fun s => s) exTokenDb 0 "t" "n" "ip" none
      exLiveTok exUser (by decide) (by decide) (by decide)).2.2.2⟩

end RagAdmin
